import Mathlib

/-!
Shallow embedding of `src/lighting_compositor.py` (class `LightingCompositor`).

Images are modelled as a pixel dimension pair together with a total pixel
function.  The PIL library primitives the source calls (LANCZOS resampling,
Gaussian-blur kernels, brightness enhancement, alpha compositing, the paste
blend) are parameters of the development, bundled in `PILLib`; only the
structure the source relies on is fixed here: resampling produces exactly the
requested target size, blurring and the pointwise filters preserve the pixel
dimensions, and `paste` touches only the pasted box.  All arithmetic the
Python code performs itself — resize dimensions, position clamping, mask
padding, rectangle fill bounds, blur radius — is translated exactly, with
Python floats modelled as rationals and Python `int()` as truncation toward
zero.
-/

/-- An RGBA pixel: red, green, blue and alpha channels. -/
structure RGBA where
  r : Nat
  g : Nat
  b : Nat
  a : Nat
deriving DecidableEq

/-- A raster image: pixel dimensions plus a total pixel function. -/
structure Image (α : Type) where
  width : Nat
  height : Nat
  pixel : Nat → Nat → α

/-- Library-provided raster primitives (PIL).  Pixel-level behaviour is kept
abstract: theorems quantify over any `PILLib`. -/
structure PILLib where
  lanczos : Image RGBA → Nat → Nat → Nat → Nat → RGBA
  blurKernel : Int → Image Nat → Nat → Nat → Nat
  brightness : ℚ → RGBA → RGBA
  alphaOver : RGBA → RGBA → RGBA
  pasteBlend : RGBA → RGBA → RGBA

/-- Python `int()` applied to a rational: truncation toward zero. -/
def pyInt (q : ℚ) : Int := if 0 ≤ q then ⌊q⌋ else ⌈q⌉

/-- The constructor arguments of `LightingCompositor.__init__`. -/
structure LightingCompositor where
  path_to_house : String
  path_to_fixture : String
  coordinates : List (Int × Int)
  scale_factor : ℚ
  apply_night_filter : Bool
  mask_dilation_percent : ℚ

/-- `_resize_fixture`: `w = max(1, int(self.fixture.width * self.scale_factor))`
and likewise for the height; the resampled content comes from the library. -/
def resizeFixture (lib : PILLib) (fixture : Image RGBA) (scale_factor : ℚ) : Image RGBA :=
  Image.mk (max 1 (pyInt ((fixture.width : ℚ) * scale_factor))).toNat
    (max 1 (pyInt ((fixture.height : ℚ) * scale_factor))).toNat
    (lib.lanczos fixture (max 1 (pyInt ((fixture.width : ℚ) * scale_factor))).toNat
      (max 1 (pyInt ((fixture.height : ℚ) * scale_factor))).toNat)

/-- The constant translucent blue tint layer `(20, 20, 50, 80)` used by
`_apply_night_filter`. -/
def nightTint : RGBA := RGBA.mk 20 20 50 80

/-- `_apply_night_filter`: brightness reduced to one half, then the tint layer
alpha-composited on top; both operations are pointwise in PIL. -/
def applyNightFilter (lib : PILLib) (img : Image RGBA) : Image RGBA :=
  Image.mk img.width img.height
    (fun i j => lib.alphaOver (lib.brightness (1 / 2) (img.pixel i j)) nightTint)

/-- `_clamp_position`: `x = max(0, min(cx - fw // 2, self.house.width - fw))`
and likewise for `y`. -/
def clampPosition (W H : Nat) (cx cy : Int) (fw fh : Nat) : Int × Int :=
  (max 0 (min (cx - ((fw / 2 : Nat) : Int)) ((W : Int) - (fw : Int))),
   max 0 (min (cy - ((fh / 2 : Nat) : Int)) ((H : Int) - (fh : Int))))

/-- PIL `Image.paste` with a mask image: pixels inside the pasted box are
blended, every other pixel of the base is untouched. -/
def Image.paste (base src : Image RGBA) (pos : Int × Int)
    (blend : RGBA → RGBA → RGBA) : Image RGBA :=
  Image.mk base.width base.height
    (fun i j =>
      if pos.1 ≤ (i : Int) ∧ (i : Int) < pos.1 + (src.width : Int) ∧
          pos.2 ≤ (j : Int) ∧ (j : Int) < pos.2 + (src.height : Int) then
        blend (src.pixel ((i : Int) - pos.1).toNat ((j : Int) - pos.2).toNat) (base.pixel i j)
      else base.pixel i j)

/-- The paste loop of `build_composite`: one clamped paste per coordinate, in
input order. -/
def pasteAll (lib : PILLib) (W H : Nat) (src : Image RGBA) (l : List (Int × Int))
    (base : Image RGBA) : Image RGBA :=
  l.foldl
    (fun comp c =>
      Image.paste comp src (clampPosition W H c.1 c.2 src.width src.height) lib.pasteBlend)
    base

/-- `build_composite` on already-loaded images: optional night filter on a copy
of the house, then the paste loop over all coordinates. -/
def buildComposite (lib : PILLib) (cfg : LightingCompositor)
    (house fixture : Image RGBA) : Image RGBA :=
  pasteAll lib house.width house.height (resizeFixture lib fixture cfg.scale_factor)
    cfg.coordinates
    (if cfg.apply_night_filter then applyNightFilter lib house else house)

/-- `pad_x = int(fw * self.mask_dilation_percent / 2)` from `build_mask`. -/
def padX (cfg : LightingCompositor) (fw : Nat) : Int :=
  pyInt ((fw : ℚ) * cfg.mask_dilation_percent / 2)

/-- `pad_y = int(fh * self.mask_dilation_percent / 2)` from `build_mask`. -/
def padY (cfg : LightingCompositor) (fh : Nat) : Int :=
  pyInt ((fh : ℚ) * cfg.mask_dilation_percent / 2)

/-- PIL `ImageDraw.rectangle`: fills the rectangle with BOTH corner pixels
included (PIL's documented inclusive-endpoint semantics); drawing outside the
canvas bounds has no observable pixel inside the canvas, so clipping is
implicit in the pixel function. -/
def drawRectangle (img : Image Nat) (x0 y0 x1 y1 : Int) (fill : Nat) : Image Nat :=
  Image.mk img.width img.height
    (fun i j =>
      if x0 ≤ (i : Int) ∧ (i : Int) ≤ x1 ∧ y0 ≤ (j : Int) ∧ (j : Int) ≤ y1 then fill
      else img.pixel i j)

/-- Membership of pixel `(i, j)` in the clipped dilated rectangle drawn for
coordinate `c` by the `build_mask` loop. -/
def dilatedRectHit (W H fw fh : Nat) (px py : Int) (c : Int × Int) (i j : Nat) : Bool :=
  decide (max 0 ((clampPosition W H c.1 c.2 fw fh).1 - px) ≤ (i : Int) ∧
    (i : Int) ≤ min (W : Int) ((clampPosition W H c.1 c.2 fw fh).1 + (fw : Int) + px) ∧
    max 0 ((clampPosition W H c.1 c.2 fw fh).2 - py) ≤ (j : Int) ∧
    (j : Int) ≤ min (H : Int) ((clampPosition W H c.1 c.2 fw fh).2 + (fh : Int) + py))

/-- The rectangle loop of `build_mask`: for each coordinate, the clipped
dilated rectangle `[x0, y0, x1, y1]` is filled with 255. -/
def fillAll (W H fw fh : Nat) (px py : Int) (l : List (Int × Int))
    (m : Image Nat) : Image Nat :=
  l.foldl
    (fun acc c =>
      drawRectangle acc
        (max 0 ((clampPosition W H c.1 c.2 fw fh).1 - px))
        (max 0 ((clampPosition W H c.1 c.2 fw fh).2 - py))
        (min (W : Int) ((clampPosition W H c.1 c.2 fw fh).1 + (fw : Int) + px))
        (min (H : Int) ((clampPosition W H c.1 c.2 fw fh).2 + (fh : Int) + py))
        255)
    m

/-- The blur radius expression `max(pad_x, pad_y) // 2 or 1` of `build_mask`:
Python `or` yields 1 exactly when the floored quotient is 0. -/
def blurRadius (pad_x pad_y : Int) : Int :=
  if Int.fdiv (max pad_x pad_y) 2 = 0 then 1 else Int.fdiv (max pad_x pad_y) 2

/-- PIL `GaussianBlur`: preserves the pixel dimensions; the blurred content
comes from the library kernel. -/
def gaussianBlur (lib : PILLib) (radius : Int) (img : Image Nat) : Image Nat :=
  Image.mk img.width img.height (lib.blurKernel radius img)

/-- The mask of `build_mask` just before the Gaussian blur: an all-zero
single-channel canvas of the house's size with every dilated rectangle
filled with 255. -/
def drawnMask (lib : PILLib) (cfg : LightingCompositor)
    (house fixture : Image RGBA) : Image Nat :=
  fillAll house.width house.height
    (resizeFixture lib fixture cfg.scale_factor).width
    (resizeFixture lib fixture cfg.scale_factor).height
    (padX cfg (resizeFixture lib fixture cfg.scale_factor).width)
    (padY cfg (resizeFixture lib fixture cfg.scale_factor).height)
    cfg.coordinates
    (Image.mk house.width house.height (fun _ _ => 0))

/-- `build_mask` on already-loaded images: the drawn mask followed by the
Gaussian blur with the computed radius. -/
def buildMask (lib : PILLib) (cfg : LightingCompositor)
    (house fixture : Image RGBA) : Image Nat :=
  gaussianBlur lib
    (blurRadius (padX cfg (resizeFixture lib fixture cfg.scale_factor).width)
      (padY cfg (resizeFixture lib fixture cfg.scale_factor).height))
    (drawnMask lib cfg house fixture)

/-- The mutable instance fields of the Python object that the methods read and
write across calls. -/
structure CompositorState where
  house : Option (Image RGBA)
  fixture : Option (Image RGBA)
  composite : Option (Image RGBA)
  mask : Option (Image Nat)

/-- A freshly constructed compositor: all four image fields are `None`. -/
def initialState : CompositorState := CompositorState.mk none none none none

/-- `_load_images`: decodes both files; `disk` maps a path to the decoded RGBA
image, or `none` when the file is missing or corrupt (PIL raises). -/
def loadImages (disk : String → Option (Image RGBA)) (cfg : LightingCompositor) :
    Except String (Image RGBA × Image RGBA) :=
  match disk cfg.path_to_house with
  | none => Except.error "failed to decode house image"
  | some h =>
    match disk cfg.path_to_fixture with
    | none => Except.error "failed to decode fixture image"
    | some f => Except.ok (h, f)

/-- Stateful `build_composite`: always reloads both images, then builds the
composite and stores everything in the instance fields. -/
def buildCompositeS (lib : PILLib) (disk : String → Option (Image RGBA))
    (cfg : LightingCompositor) (st : CompositorState) :
    Except String (Image RGBA × CompositorState) :=
  match loadImages disk cfg with
  | Except.error e => Except.error e
  | Except.ok (h, f) =>
    Except.ok (buildComposite lib cfg h f,
      CompositorState.mk (some h) (some f) (some (buildComposite lib cfg h f)) st.mask)

/-- Stateful `build_mask`: loads the images only when `self.house is None`,
then builds the mask from the loaded images. -/
def buildMaskS (lib : PILLib) (disk : String → Option (Image RGBA))
    (cfg : LightingCompositor) (st : CompositorState) :
    Except String (Image Nat × CompositorState) :=
  match st.house with
  | none =>
    match loadImages disk cfg with
    | Except.error e => Except.error e
    | Except.ok (h, f) =>
      Except.ok (buildMask lib cfg h f,
        CompositorState.mk (some h) (some f) st.composite (some (buildMask lib cfg h f)))
  | some h =>
    match st.fixture with
    | none => Except.error "fixture image not loaded"
    | some f =>
      Except.ok (buildMask lib cfg h f,
        CompositorState.mk (some h) (some f) st.composite (some (buildMask lib cfg h f)))

/-- `composite.convert("RGB")`: the alpha channel is stripped (made opaque). -/
def convertRGB (img : Image RGBA) : Image RGBA :=
  Image.mk img.width img.height
    (fun i j => RGBA.mk (img.pixel i j).r (img.pixel i j).g (img.pixel i j).b 255)

/-- An output file written by `run`: either the RGB composite or the grayscale
mask. -/
inductive OutFile where
  | rgb (img : Image RGBA) : OutFile
  | gray (img : Image Nat) : OutFile

/-- `run`: build the composite (loading the images), build the mask, then save
both files.  The returned list holds the files written, in write order; a
decode failure raises before anything is written, so the error case carries no
file at all. -/
def run (lib : PILLib) (disk : String → Option (Image RGBA))
    (cfg : LightingCompositor) (output_composite output_mask : String) :
    Except String (List (String × OutFile)) :=
  match buildCompositeS lib disk cfg initialState with
  | Except.error e => Except.error e
  | Except.ok (comp, st) =>
    match buildMaskS lib disk cfg st with
    | Except.error e => Except.error e
    | Except.ok (mask, _) =>
      Except.ok [(output_composite, OutFile.rgb (convertRGB comp)),
        (output_mask, OutFile.gray mask)]

/-- Whether a `run` result produced any output file. -/
def producesOutput (r : Except String (List (String × OutFile))) : Bool :=
  match r with
  | Except.ok _ => true
  | Except.error _ => false

/-- The mask produced by a fresh compositor on which `build_composite` is
invoked before `build_mask` (the order `run` uses). -/
def maskAfterComposite (lib : PILLib) (disk : String → Option (Image RGBA))
    (cfg : LightingCompositor) : Except String (Image Nat) :=
  match buildCompositeS lib disk cfg initialState with
  | Except.error e => Except.error e
  | Except.ok (_, st) =>
    match buildMaskS lib disk cfg st with
    | Except.error e => Except.error e
    | Except.ok (m, _) => Except.ok m

/-- The mask produced by a fresh compositor on which only `build_mask` is
invoked. -/
def maskAlone (lib : PILLib) (disk : String → Option (Image RGBA))
    (cfg : LightingCompositor) : Except String (Image Nat) :=
  match buildMaskS lib disk cfg initialState with
  | Except.error e => Except.error e
  | Except.ok (m, _) => Except.ok m

/-- Clamping of a value to a closed interval, as the spec states it. -/
def clamp (v lo hi : Int) : Int := min (max v lo) hi

/-- Membership of pixel `(i, j)` in the box where the resized overlay is
pasted for coordinate `c`. -/
def inPasteBox (W H fw fh : Nat) (c : Int × Int) (i j : Nat) : Prop :=
  (clampPosition W H c.1 c.2 fw fh).1 ≤ (i : Int) ∧
  (i : Int) < (clampPosition W H c.1 c.2 fw fh).1 + (fw : Int) ∧
  (clampPosition W H c.1 c.2 fw fh).2 ≤ (j : Int) ∧
  (j : Int) < (clampPosition W H c.1 c.2 fw fh).2 + (fh : Int)

instance (W H fw fh : Nat) (c : Int × Int) (i j : Nat) :
    Decidable (inPasteBox W H fw fh c i j) := by
  unfold inPasteBox
  infer_instance

/-- A concrete instantiation of the library primitives, used only to evaluate
the development on concrete inputs. -/
def trivLib : PILLib :=
  PILLib.mk (fun _ _ _ _ _ => RGBA.mk 0 0 0 0) (fun _ img i j => img.pixel i j)
    (fun _ p => p) (fun p _ => p) (fun s _ => s)

/-- A 5-by-5 all-transparent fixture image. -/
def fixtureFive : Image RGBA := Image.mk 5 5 (fun _ _ => RGBA.mk 0 0 0 0)

/-- A 20-by-20 opaque fixture image. -/
def fixtureTwenty : Image RGBA := Image.mk 20 20 (fun _ _ => RGBA.mk 0 0 0 255)

/-- A 100-by-100 fixture image, the size of the demo fixture. -/
def fixtureHundred : Image RGBA := Image.mk 100 100 (fun _ _ => RGBA.mk 200 160 50 230)

/-- A 2-by-2 fixture with position-dependent pixels. -/
def fixtureTwo : Image RGBA := Image.mk 2 2 (fun i j => RGBA.mk i j 0 255)

/-- A 40-by-40 house image. -/
def houseForty : Image RGBA := Image.mk 40 40 (fun _ _ => RGBA.mk 240 240 240 255)

/-- An 8-by-8 house with position-dependent pixels. -/
def houseEight : Image RGBA := Image.mk 8 8 (fun i j => RGBA.mk i j 0 255)

/-- The demo configuration of the script's `__main__` block: scale 0.2,
night filter on, default dilation 0.30, four placements. -/
def demoConfig : LightingCompositor :=
  LightingCompositor.mk "_test_house.png" "_test_fixture.png"
    [(280, 490), (520, 490), (200, 350), (600, 350)] (1 / 5) true (3 / 10)

/-- A single-placement configuration at scale 1 with the default dilation
0.30, centered on a 40-by-40 house. -/
def maskDemoConfig : LightingCompositor :=
  LightingCompositor.mk "_test_house.png" "_test_fixture.png" [(20, 20)] 1 true (3 / 10)

/-- A single-placement configuration with the night filter off. -/
def plainConfig : LightingCompositor :=
  LightingCompositor.mk "h.png" "f.png" [(1, 1)] 1 false (3 / 10)

/-- A disk on which no path decodes. -/
def emptyDisk : String → Option (Image RGBA) := fun _ => none

/-- A disk on which every path decodes to the 40-by-40 house. -/
def fullDisk : String → Option (Image RGBA) := fun _ => some houseForty

/-- Truncation toward zero agrees with the floor on nonnegative rationals. -/
theorem pyInt_of_nonneg (q : ℚ) (h : 0 ≤ q) : pyInt q = ⌊q⌋ := if_pos h

/-- Truncation toward zero of a nonnegative rational is nonnegative. -/
theorem pyInt_nonneg (q : ℚ) (h : 0 ≤ q) : 0 ≤ pyInt q := by
  rw [pyInt_of_nonneg q h]
  exact Int.floor_nonneg.mpr h

/-- The horizontal mask padding is the floor of `fw * dilation / 2` whenever
the dilation is nonnegative. -/
theorem padX_eq_floor (cfg : LightingCompositor) (fw : Nat)
    (hd : 0 ≤ cfg.mask_dilation_percent) :
    padX cfg fw = ⌊(fw : ℚ) * cfg.mask_dilation_percent / 2⌋ :=
  pyInt_of_nonneg _ (by positivity)

/-- The vertical mask padding is the floor of `fh * dilation / 2` whenever
the dilation is nonnegative. -/
theorem padY_eq_floor (cfg : LightingCompositor) (fh : Nat)
    (hd : 0 ≤ cfg.mask_dilation_percent) :
    padY cfg fh = ⌊(fh : ℚ) * cfg.mask_dilation_percent / 2⌋ :=
  pyInt_of_nonneg _ (by positivity)

/-- The horizontal mask padding is nonnegative for a nonnegative dilation. -/
theorem padX_nonneg (cfg : LightingCompositor) (fw : Nat)
    (hd : 0 ≤ cfg.mask_dilation_percent) : 0 ≤ padX cfg fw :=
  pyInt_nonneg _ (by positivity)

/-- The vertical mask padding is nonnegative for a nonnegative dilation. -/
theorem padY_nonneg (cfg : LightingCompositor) (fh : Nat)
    (hd : 0 ≤ cfg.mask_dilation_percent) : 0 ≤ padY cfg fh :=
  pyInt_nonneg _ (by positivity)

/-- Floor division of a nonnegative integer by two is nonnegative. -/
theorem fdiv_two_nonneg (a : Int) (h : 0 ≤ a) : 0 ≤ Int.fdiv a 2 := by
  obtain ⟨n, rfl⟩ := Int.eq_ofNat_of_zero_le h
  rw [show ((2 : Int)) = ((2 : Nat) : Int) from rfl, ← Int.ofNat_fdiv]
  exact Int.ofNat_nonneg _

/-- A paste leaves every pixel outside the pasted box unchanged. -/
theorem paste_pixel_outside (base src : Image RGBA) (pos : Int × Int)
    (blend : RGBA → RGBA → RGBA) (i j : Nat)
    (h : ¬ (pos.1 ≤ (i : Int) ∧ (i : Int) < pos.1 + (src.width : Int) ∧
        pos.2 ≤ (j : Int) ∧ (j : Int) < pos.2 + (src.height : Int))) :
    (Image.paste base src pos blend).pixel i j = base.pixel i j := by
  simp only [Image.paste]
  exact if_neg h

/-- The paste loop leaves every pixel outside all pasted boxes unchanged. -/
theorem pasteAll_pixel_outside (lib : PILLib) (W H : Nat) (src : Image RGBA)
    (l : List (Int × Int)) (base : Image RGBA) (i j : Nat)
    (h : ∀ c ∈ l, ¬ inPasteBox W H src.width src.height c i j) :
    (pasteAll lib W H src l base).pixel i j = base.pixel i j := by
  induction l generalizing base with
  | nil => rfl
  | cons c cs ih =>
    simp only [pasteAll, List.foldl_cons] at ih ⊢
    rw [ih _ (fun d hd => h d (List.mem_cons_of_mem c hd))]
    exact paste_pixel_outside base src _ lib.pasteBlend i j
      (by simpa [inPasteBox] using h c (List.mem_cons_self c cs))

/-- The paste loop preserves the width of its base image. -/
theorem pasteAll_width (lib : PILLib) (W H : Nat) (src : Image RGBA)
    (l : List (Int × Int)) (base : Image RGBA) :
    (pasteAll lib W H src l base).width = base.width := by
  induction l generalizing base with
  | nil => rfl
  | cons c cs ih =>
    simp only [pasteAll, List.foldl_cons] at ih ⊢
    rw [ih]
    rfl

/-- The paste loop preserves the height of its base image. -/
theorem pasteAll_height (lib : PILLib) (W H : Nat) (src : Image RGBA)
    (l : List (Int × Int)) (base : Image RGBA) :
    (pasteAll lib W H src l base).height = base.height := by
  induction l generalizing base with
  | nil => rfl
  | cons c cs ih =>
    simp only [pasteAll, List.foldl_cons] at ih ⊢
    rw [ih]
    rfl

/-- The rectangle loop preserves the width of its canvas. -/
theorem fillAll_width (W H fw fh : Nat) (px py : Int) (l : List (Int × Int))
    (m : Image Nat) : (fillAll W H fw fh px py l m).width = m.width := by
  induction l generalizing m with
  | nil => rfl
  | cons c cs ih =>
    simp only [fillAll, List.foldl_cons] at ih ⊢
    rw [ih]
    rfl

/-- The rectangle loop preserves the height of its canvas. -/
theorem fillAll_height (W H fw fh : Nat) (px py : Int) (l : List (Int × Int))
    (m : Image Nat) : (fillAll W H fw fh px py l m).height = m.height := by
  induction l generalizing m with
  | nil => rfl
  | cons c cs ih =>
    simp only [fillAll, List.foldl_cons] at ih ⊢
    rw [ih]
    rfl

/-- Pixel characterization of one drawn rectangle. -/
theorem drawRectangle_pixel (img : Image Nat) (x0 y0 x1 y1 : Int) (fill : Nat)
    (i j : Nat) :
    (drawRectangle img x0 y0 x1 y1 fill).pixel i j
      = if x0 ≤ (i : Int) ∧ (i : Int) ≤ x1 ∧ y0 ≤ (j : Int) ∧ (j : Int) ≤ y1 then fill
        else img.pixel i j := rfl

/-- Pixel characterization of the rectangle loop: a pixel is filled exactly
when it lies in the clipped dilated rectangle of some coordinate. -/
theorem fillAll_pixel (W H fw fh : Nat) (px py : Int) (l : List (Int × Int))
    (m : Image Nat) (i j : Nat) :
    (fillAll W H fw fh px py l m).pixel i j
      = if l.any (fun c => dilatedRectHit W H fw fh px py c i j) then 255
        else m.pixel i j := by
  induction l generalizing m with
  | nil => simp [fillAll]
  | cons c cs ih =>
    simp only [fillAll, List.foldl_cons] at ih ⊢
    rw [ih, List.any_cons]
    cases hcs : cs.any (fun c => dilatedRectHit W H fw fh px py c i j) with
    | true => simp
    | false =>
      simp only [Bool.or_false, Bool.false_eq_true, if_false]
      rw [drawRectangle_pixel]
      simp only [dilatedRectHit]
      by_cases hc : max 0 ((clampPosition W H c.1 c.2 fw fh).1 - px) ≤ (i : Int) ∧
          (i : Int) ≤ min (W : Int) ((clampPosition W H c.1 c.2 fw fh).1 + (fw : Int) + px) ∧
          max 0 ((clampPosition W H c.1 c.2 fw fh).2 - py) ≤ (j : Int) ∧
          (j : Int) ≤ min (H : Int) ((clampPosition W H c.1 c.2 fw fh).2 + (fh : Int) + py)
      · rw [if_pos hc, if_pos (decide_eq_true hc)]
      · rw [if_neg hc, if_neg (fun hcb => hc (of_decide_eq_true hcb))]

/-- Claim C1 counterexample: at a 5-by-5 overlay and scale factor 3/4 the
resize operation returns width 3 = max(1, trunc(3.75)), not
max(1, round(3.75)) = 4, so the claim's rounding formula is false. -/
theorem resize_width_not_round :
    ¬ (resizeFixture trivLib fixtureFive (3 / 4)).width
        = (max 1 (round ((fixtureFive.width : ℚ) * (3 / 4)))).toNat := by
  with_unfolding_all decide

/-- Claim C1 (amended): for every overlay image and every scale factor s > 0,
the resize operation returns width max(1, floor(w * s)) and height
max(1, floor(h * s)) — Python `int()` truncates, it does not round. -/
theorem resize_dims_floor (lib : PILLib) (fixture : Image RGBA) (s : ℚ)
    (hs : 0 < s) :
    ((resizeFixture lib fixture s).width : Int) = max 1 ⌊(fixture.width : ℚ) * s⌋
      ∧ ((resizeFixture lib fixture s).height : Int) = max 1 ⌊(fixture.height : ℚ) * s⌋ := by
  have hw : (0 : ℚ) ≤ (fixture.width : ℚ) * s := by positivity
  have hh : (0 : ℚ) ≤ (fixture.height : ℚ) * s := by positivity
  simp only [resizeFixture]
  rw [pyInt_of_nonneg _ hw, pyInt_of_nonneg _ hh]
  constructor <;> exact Int.toNat_of_nonneg (le_trans Int.one_pos.le (le_max_left _ _))

/-- Claim C1 witness: the amended statement evaluated at the 5-by-5 overlay
and scale factor 3/4. -/
theorem resize_dims_floor_witness :
    (0 : ℚ) < 3 / 4
      ∧ ((resizeFixture trivLib fixtureFive (3 / 4)).width : Int)
          = max 1 ⌊(fixtureFive.width : ℚ) * (3 / 4)⌋ :=
  ⟨by norm_num, (resize_dims_floor trivLib fixtureFive (3 / 4) (by norm_num)).1⟩

/-- Claim C2: with fw ≤ W and fh ≤ H the clamp operation computes
clamp(center − half-extent, 0, background − extent) in each axis; a placement
centered at (0, 0) lands at top-left (0, 0) and one centered at (W, H) lands
at (W − fw, H − fh). -/
theorem clamp_formula_and_corners (W H : Nat) (cx cy : Int) (fw fh : Nat)
    (hw : fw ≤ W) (hh : fh ≤ H) :
    clampPosition W H cx cy fw fh
        = (clamp (cx - ((fw / 2 : Nat) : Int)) 0 ((W : Int) - (fw : Int)),
           clamp (cy - ((fh / 2 : Nat) : Int)) 0 ((H : Int) - (fh : Int)))
      ∧ clampPosition W H 0 0 fw fh = (0, 0)
      ∧ clampPosition W H (W : Int) (H : Int) fw fh
          = ((W : Int) - (fw : Int), (H : Int) - (fh : Int)) := by
  refine ⟨?_, ?_, ?_⟩ <;>
    · simp only [clampPosition, clamp, Prod.mk.injEq]
      constructor <;> omega

/-- Claim C2 witness: the clamp formula and both corner cases on an 800-by-600
background with a 20-by-20 overlay. -/
theorem clamp_formula_and_corners_witness :
    ((20 : Nat) ≤ 800 ∧ (20 : Nat) ≤ 600)
      ∧ clampPosition 800 600 0 0 20 20 = (0, 0)
      ∧ clampPosition 800 600 800 600 20 20
          = (((800 : Nat) : Int) - ((20 : Nat) : Int), ((600 : Nat) : Int) - ((20 : Nat) : Int)) :=
  ⟨⟨by decide, by decide⟩,
   (clamp_formula_and_corners 800 600 0 0 20 20 (by decide) (by decide)).2.1,
   (clamp_formula_and_corners 800 600 800 600 20 20 (by decide) (by decide)).2.2⟩

/-- Claim C3 counterexample: with dilation 0.30 and a 20-by-20 resized
overlay the pad is 3 but the filled rectangle spans 27 pixel columns, not 26,
because PIL's rectangle fill includes both endpoint columns; and on a 5-by-5
resized overlay the pad is trunc(0.75) = 0, not round(0.75) = 1, so both the
rounding formula and the 26-pixel width of the claim are false. -/
theorem mask_rect_width_not_26 :
    ((List.range 40).filter
        (fun i => (drawnMask trivLib maskDemoConfig houseForty fixtureTwenty).pixel i 20 = 255)).length ≠ 26
      ∧ padX maskDemoConfig (resizeFixture trivLib fixtureFive maskDemoConfig.scale_factor).width
          ≠ round (((resizeFixture trivLib fixtureFive maskDemoConfig.scale_factor).width : ℚ)
              * maskDemoConfig.mask_dilation_percent / 2) := by
  with_unfolding_all decide

/-- Claim C3 (amended): for a nonnegative dilation the pads are
pad = floor(extent * dilation / 2) (truncation, not rounding), and a mask
pixel is filled with maximum intensity exactly when it lies inside the
clipped dilated rectangle of some placement, both endpoints included — so the
unclipped filled rectangle of the 0.30-dilation 20-by-20 case is 27 pixels
wide, not 26. -/
theorem mask_fill_characterization (lib : PILLib) (cfg : LightingCompositor)
    (house fixture : Image RGBA) (hd : 0 ≤ cfg.mask_dilation_percent) (i j : Nat) :
    padX cfg (resizeFixture lib fixture cfg.scale_factor).width
        = ⌊((resizeFixture lib fixture cfg.scale_factor).width : ℚ) * cfg.mask_dilation_percent / 2⌋
      ∧ padY cfg (resizeFixture lib fixture cfg.scale_factor).height
        = ⌊((resizeFixture lib fixture cfg.scale_factor).height : ℚ) * cfg.mask_dilation_percent / 2⌋
      ∧ (drawnMask lib cfg house fixture).pixel i j
        = (if cfg.coordinates.any (fun c =>
              dilatedRectHit house.width house.height
                (resizeFixture lib fixture cfg.scale_factor).width
                (resizeFixture lib fixture cfg.scale_factor).height
                (padX cfg (resizeFixture lib fixture cfg.scale_factor).width)
                (padY cfg (resizeFixture lib fixture cfg.scale_factor).height) c i j)
            then 255 else 0) := by
  refine ⟨padX_eq_floor cfg _ hd, padY_eq_floor cfg _ hd, ?_⟩
  rw [drawnMask, fillAll_pixel]

/-- Claim C3 witness: the amended pixel characterization evaluated at pixel
(33, 20) of the 40-by-40 house with the 20-by-20 overlay. -/
theorem mask_fill_characterization_witness :
    0 ≤ maskDemoConfig.mask_dilation_percent
      ∧ (drawnMask trivLib maskDemoConfig houseForty fixtureTwenty).pixel 33 20
        = (if maskDemoConfig.coordinates.any (fun c =>
              dilatedRectHit houseForty.width houseForty.height
                (resizeFixture trivLib fixtureTwenty maskDemoConfig.scale_factor).width
                (resizeFixture trivLib fixtureTwenty maskDemoConfig.scale_factor).height
                (padX maskDemoConfig (resizeFixture trivLib fixtureTwenty maskDemoConfig.scale_factor).width)
                (padY maskDemoConfig (resizeFixture trivLib fixtureTwenty maskDemoConfig.scale_factor).height) c 33 20)
            then 255 else 0) :=
  ⟨by with_unfolding_all decide,
   (mask_fill_characterization trivLib maskDemoConfig houseForty fixtureTwenty
     (by with_unfolding_all decide) 33 20).2.2⟩

/-- Claim C4: the composite and the mask both have exactly the background's
pixel dimensions, for every background, overlay and placement list. -/
theorem outputs_match_background_dims (lib : PILLib) (cfg : LightingCompositor)
    (house fixture : Image RGBA) :
    (buildComposite lib cfg house fixture).width = house.width
      ∧ (buildComposite lib cfg house fixture).height = house.height
      ∧ (buildMask lib cfg house fixture).width = house.width
      ∧ (buildMask lib cfg house fixture).height = house.height := by
  refine ⟨?_, ?_, ?_, ?_⟩
  · rw [buildComposite, pasteAll_width]
    cases cfg.apply_night_filter <;> rfl
  · rw [buildComposite, pasteAll_height]
    cases cfg.apply_night_filter <;> rfl
  · show (drawnMask lib cfg house fixture).width = house.width
    rw [drawnMask, fillAll_width]
  · show (drawnMask lib cfg house fixture).height = house.height
    rw [drawnMask, fillAll_height]

/-- Claim C5: a placement strictly more than half the overlay extent away
from every edge is not clamped: the top-left is exactly
(cx − fw / 2, cy − fh / 2). -/
theorem clamp_noop_interior (W H : Nat) (cx cy : Int) (fw fh : Nat)
    (h1 : (fw : Int) < 2 * cx) (h2 : (fw : Int) < 2 * ((W : Int) - cx))
    (h3 : (fh : Int) < 2 * cy) (h4 : (fh : Int) < 2 * ((H : Int) - cy)) :
    clampPosition W H cx cy fw fh
      = (cx - ((fw / 2 : Nat) : Int), cy - ((fh / 2 : Nat) : Int)) := by
  simp only [clampPosition, Prod.mk.injEq]
  constructor <;> omega

/-- Claim C5 witness: the 100-by-100 overlay at scale 0.2 resizes to 20-by-20
and the placement (280, 490) on the 800-by-600 background lands unclamped at
top-left (270, 480). -/
theorem clamp_noop_interior_witness :
    ((resizeFixture trivLib fixtureHundred demoConfig.scale_factor).width = 20
        ∧ (resizeFixture trivLib fixtureHundred demoConfig.scale_factor).height = 20)
      ∧ ((20 : Int) < 2 * 280 ∧ (20 : Int) < 2 * (800 - 280)
        ∧ (20 : Int) < 2 * 490 ∧ (20 : Int) < 2 * (600 - 490))
      ∧ clampPosition 800 600 280 490 20 20 = (270, 480) :=
  ⟨⟨by with_unfolding_all decide, by with_unfolding_all decide⟩,
   ⟨by decide, by decide, by decide, by decide⟩,
   clamp_noop_interior 800 600 280 490 20 20 (by decide) (by decide) (by decide) (by decide)⟩

/-- Claim C6: the mask blur radius is max(pad_x, pad_y) // 2 with 1 whenever
that quotient is 0, and it is at least 1 for every overlay size and every
nonnegative dilation. -/
theorem blur_radius_formula_pos (lib : PILLib) (cfg : LightingCompositor)
    (fixture : Image RGBA) (hd : 0 ≤ cfg.mask_dilation_percent) :
    blurRadius (padX cfg (resizeFixture lib fixture cfg.scale_factor).width)
        (padY cfg (resizeFixture lib fixture cfg.scale_factor).height)
      = (if Int.fdiv (max (padX cfg (resizeFixture lib fixture cfg.scale_factor).width)
            (padY cfg (resizeFixture lib fixture cfg.scale_factor).height)) 2 = 0 then 1
          else Int.fdiv (max (padX cfg (resizeFixture lib fixture cfg.scale_factor).width)
            (padY cfg (resizeFixture lib fixture cfg.scale_factor).height)) 2)
      ∧ 1 ≤ blurRadius (padX cfg (resizeFixture lib fixture cfg.scale_factor).width)
          (padY cfg (resizeFixture lib fixture cfg.scale_factor).height) := by
  refine ⟨rfl, ?_⟩
  have hx : 0 ≤ padX cfg (resizeFixture lib fixture cfg.scale_factor).width :=
    padX_nonneg cfg _ hd
  have hy : 0 ≤ padY cfg (resizeFixture lib fixture cfg.scale_factor).height :=
    padY_nonneg cfg _ hd
  have hq : 0 ≤ Int.fdiv (max (padX cfg (resizeFixture lib fixture cfg.scale_factor).width)
      (padY cfg (resizeFixture lib fixture cfg.scale_factor).height)) 2 :=
    fdiv_two_nonneg _ (le_trans hx (le_max_left _ _))
  rw [blurRadius]
  split <;> omega

/-- Claim C6 witness: the radius bound evaluated on the demo configuration
with the 100-by-100 overlay. -/
theorem blur_radius_formula_pos_witness :
    0 ≤ demoConfig.mask_dilation_percent
      ∧ 1 ≤ blurRadius (padX demoConfig (resizeFixture trivLib fixtureHundred demoConfig.scale_factor).width)
          (padY demoConfig (resizeFixture trivLib fixtureHundred demoConfig.scale_factor).height) :=
  ⟨by with_unfolding_all decide,
   (blur_radius_formula_pos trivLib demoConfig fixtureHundred (by with_unfolding_all decide)).2⟩

/-- Claim C7: with the night filter off, every pixel outside the pasted box
of every placement is exactly the original background pixel. -/
theorem composite_outside_eq_house (lib : PILLib) (cfg : LightingCompositor)
    (house fixture : Image RGBA) (hfilter : cfg.apply_night_filter = false) (i j : Nat)
    (h : ∀ c ∈ cfg.coordinates,
        ¬ inPasteBox house.width house.height
            (resizeFixture lib fixture cfg.scale_factor).width
            (resizeFixture lib fixture cfg.scale_factor).height c i j) :
    (buildComposite lib cfg house fixture).pixel i j = house.pixel i j := by
  rw [buildComposite, hfilter]
  simp only [Bool.false_eq_true, if_false]
  exact pasteAll_pixel_outside lib house.width house.height _ cfg.coordinates house i j h

/-- Claim C7 witness: pixel (5, 5) of an 8-by-8 background with a single
placement at (1, 1) of a 2-by-2 overlay, night filter off. -/
theorem composite_outside_eq_house_witness :
    plainConfig.apply_night_filter = false
      ∧ (∀ c ∈ plainConfig.coordinates,
          ¬ inPasteBox houseEight.width houseEight.height
              (resizeFixture trivLib fixtureTwo plainConfig.scale_factor).width
              (resizeFixture trivLib fixtureTwo plainConfig.scale_factor).height c 5 5)
      ∧ (buildComposite trivLib plainConfig houseEight fixtureTwo).pixel 5 5
          = houseEight.pixel 5 5 :=
  ⟨rfl, by with_unfolding_all decide,
   composite_outside_eq_house trivLib plainConfig houseEight fixtureTwo rfl 5 5
     (by with_unfolding_all decide)⟩

/-- Claim C8: a decode failure of either input aborts `run` before any output
file is produced: the result is an error carrying no written file. -/
theorem run_aborts_on_decode_failure (lib : PILLib)
    (disk : String → Option (Image RGBA)) (cfg : LightingCompositor)
    (output_composite output_mask : String)
    (h : disk cfg.path_to_house = none ∨ disk cfg.path_to_fixture = none) :
    producesOutput (run lib disk cfg output_composite output_mask) = false := by
  simp only [run, buildCompositeS, loadImages, producesOutput]
  rcases h with h | h
  · rw [h]
  · cases hh : disk cfg.path_to_house
    · rfl
    · rw [h]

/-- Claim C8 witness: a disk on which nothing decodes makes `run` produce no
output. -/
theorem run_aborts_on_decode_failure_witness :
    (emptyDisk demoConfig.path_to_house = none ∨ emptyDisk demoConfig.path_to_fixture = none)
      ∧ producesOutput (run trivLib emptyDisk demoConfig "out_composite.png" "out_mask.png") = false :=
  ⟨Or.inl rfl,
   run_aborts_on_decode_failure trivLib emptyDisk demoConfig "out_composite.png" "out_mask.png"
     (Or.inl rfl)⟩

/-- Claim C9: for every input whatsoever, including fw > W or fh > H, the
clamp operation returns nonnegative coordinates, because the lower clamp to 0
is applied outside the upper clamp. -/
theorem clamp_nonneg (W H : Nat) (cx cy : Int) (fw fh : Nat) :
    0 ≤ (clampPosition W H cx cy fw fh).1 ∧ 0 ≤ (clampPosition W H cx cy fw fh).2 :=
  ⟨le_max_left 0 _, le_max_left 0 _⟩

/-- Claim C10: the mask neither depends on the night-filter flag nor on
whether `build_composite` ran beforehand on the same fresh compositor. -/
theorem mask_independent_of_filter_and_order (lib : PILLib)
    (disk : String → Option (Image RGBA)) (cfg : LightingCompositor) (b b' : Bool)
    (house fixture : Image RGBA) :
    buildMask lib { cfg with apply_night_filter := b } house fixture
        = buildMask lib { cfg with apply_night_filter := b' } house fixture
      ∧ maskAfterComposite lib disk cfg = maskAlone lib disk cfg := by
  constructor
  · rfl
  · simp only [maskAfterComposite, maskAlone, buildCompositeS, buildMaskS, loadImages,
      initialState]
    cases hh : disk cfg.path_to_house
    · rfl
    · cases hf : disk cfg.path_to_fixture
      · rfl
      · rfl
